/-
  Verification of the observation/reward hook module of the coverage-gridworld
  repository (`coverage_gridworld/custom.py`).

  The module is a small configurable policy layer: two observation encoders
  (`global_observation`, `local_observation`), three reward shapers
  (`reward_basic`, `reward_time_pressure`, `reward_proximity`), and two
  dispatch hooks (`observation`, `reward`) that read process-wide mutable
  mode flags and cache slots (`CURRENT_OBS_MODE`, `CURRENT_REWARD_MODE`,
  `LAST_INFO`, `LAST_AGENT_POS`).

  Embedding conventions:
  * A numpy `(10,10,3)` uint8 array is embedded as a function
    `Grid = Nat → Nat → Nat → Nat`; only indices `r < 10, c < 10, k < 3`
    are ever read by the embedded code.
  * Python ints appearing in the module are nonnegative in every reachable
    call (positions, counters), so they are embedded as `Nat`; where Python
    arithmetic can go below zero (`agent_row - 2`, `row_max - row_min`) the
    embedding computes over `Int` and clamps exactly where the code does.
  * Python floats are embedded as rationals `ℚ`; all reward constants
    (1.0, 0.01, 0.05, 0.1, 5.0) and their sums are exact decimals.
  * `np.uint8` casts wrap modulo 256, embedded as `% 256`.
  * Module-level mutable globals are embedded as an explicit `ModuleState`
    threaded through the hook functions.
-/
import Mathlib

namespace CoverageGridworld

/-- An enemy record exposing integer grid coordinates, as read by
`reward_proximity` (`enemy.x`, `enemy.y`). -/
structure Enemy where
  x : Int
  y : Int
deriving DecidableEq, Repr

/-- The per-step info record produced by the environment, with the fields
`custom.py` reads: `info["agent_pos"]`, `info["steps_remaining"]`,
`info["cells_remaining"]`, `info["new_cell_covered"]`, `info["game_over"]`,
`info["enemies"]`. -/
structure StepInfo where
  agent_pos : Nat
  steps_remaining : Nat
  cells_remaining : Nat
  new_cell_covered : Bool
  game_over : Bool
  enemies : List Enemy
deriving DecidableEq, Repr

/-- A `(10,10,3)` uint8 grid, as a lookup `g row col channel`.  Only indices
with `row < 10`, `col < 10`, `channel < 3` are meaningful. -/
def Grid : Type := Nat → Nat → Nat → Nat

/-- Well-formedness of a `StepInfo` per the data model: `agent_pos` is a
flattened row-major index into the `10×10` grid, range `[0,99]`. -/
def StepInfo.WellFormed (info : StepInfo) : Prop := info.agent_pos ≤ 99

instance (info : StepInfo) : Decidable info.WellFormed := by
  unfold StepInfo.WellFormed; infer_instance

/-- `global_observation(grid)`: `grid.flatten()` — the row-major (C-order),
channel-last flatten of the `(10,10,3)` array into a 300-element vector.
Flat index `i` reads element `(i / 30, i / 3 % 10, i % 3)`. -/
def global_observation (g : Grid) : List Nat :=
  (List.range 300).map fun i => g (i / 30) (i / 3 % 10) (i % 3)

/-- `np.reshape(v, (10,10,3))` on a 300-element vector: entry `(r,c,k)` is
the flat element at index `30*r + 3*c + k`. -/
def reshape_10_10_3 (v : List Nat) (r c k : Nat) : Nat :=
  v.getD (30 * r + 3 * c + k) 0

/-- Length of the numpy basic slice `a[0:stop]` on an axis of length `n`
(`n ≥ 0`): a nonnegative `stop` is clipped to `n` from above; a negative
`stop` counts from the end of the axis and is clipped to `0` from below. -/
def slice_len (n : Int) (stop : Int) : Int :=
  if 0 ≤ stop then min stop n else max 0 (n + stop)

/-- The contents of `padded_patch` after
`padded_patch = np.zeros((5,5,3)); padded_patch[0:h, 0:w, :] = local_patch`
where `local_patch = grid[row_min:row_max, col_min:col_max, :]` and
`h = row_max - row_min`, `w = col_max - col_min`: cell `(i,j,k)` holds the
grid value at `(row_min + i, col_min + j, k)` when `(i,j)` falls inside the
copied window and `0` otherwise.  (In every reachable success case the
copied region is exactly `i < h ∧ j < w`: when `h ≥ 0` the target slice
`[0:h]` has `h ≤ 5` rows and receives the `h` patch rows one-for-one, and
when `h < 0` the assignment only succeeds with an empty target and empty
patch, leaving all zeros; likewise for `w`.) -/
def paddedPatch (g : Grid) (row_min col_min h w : Int) :
    Nat → Nat → Nat → Nat :=
  fun i j k =>
    if (i : Int) < h ∧ (j : Int) < w then
      g (row_min.toNat + i) (col_min.toNat + j) k
    else 0

/-- `padded_patch.flatten()` for a `(5,5,3)` buffer: row-major, channel-last
flatten into 75 elements; flat index `i` reads cell `(i/15, i/3 % 5, i%3)`. -/
def flatten75 (p : Nat → Nat → Nat → Nat) : List Nat :=
  (List.range 75).map fun i => p (i / 15) (i / 3 % 5) (i % 3)

/-- `local_observation(grid, info)`: computes the agent row/column from the
flattened `agent_pos` (Python floor division and modulus on nonnegative
ints), the window bounds `row_min = max(0, row-2)`,
`row_max = min(10, row+3)` (symmetrically for columns), slices
`grid[row_min:row_max, col_min:col_max, :]`, assigns it into the top-left
of a zero `(5,5,3)` buffer via `padded_patch[0:h, 0:w, :] = local_patch`,
flattens the buffer and appends `steps_remaining` and `cells_remaining`
cast to `np.uint8` (wrap modulo 256).

The numpy slice assignment raises a broadcast `ValueError` when the target
slice shape differs from the patch shape; the embedding returns
`Except.error` exactly then.  (Numpy would also accept a patch axis of
extent 1 against a larger target by repetition, but that case is
unreachable here: whenever `h ≥ 0` the two row counts are equal, and when
`h < 0` the patch has 0 rows; column counts are always equal since the
column index is in `[0,9]`.  So shape inequality is exactly the numpy
failure condition for this function.) -/
def local_observation (g : Grid) (info : StepInfo) :
    Except String (List Nat) :=
  let grid_size : Int := 10
  let agent_pos := info.agent_pos
  let agent_row : Int := (agent_pos : Int) / grid_size
  let agent_col : Int := (agent_pos : Int) % grid_size
  let patch_radius : Int := 2
  let row_min : Int := max 0 (agent_row - patch_radius)
  let row_max : Int := min grid_size (agent_row + patch_radius + 1)
  let col_min : Int := max 0 (agent_col - patch_radius)
  let col_max : Int := min grid_size (agent_col + patch_radius + 1)
  let h : Int := row_max - row_min
  let w : Int := col_max - col_min
  let patch_rows : Int := max 0 (row_max - min row_min grid_size)
  let patch_cols : Int := max 0 (col_max - min col_min grid_size)
  if slice_len 5 h = patch_rows ∧ slice_len 5 w = patch_cols then
    Except.ok (flatten75 (paddedPatch g row_min col_min h w) ++
      [info.steps_remaining % 256, info.cells_remaining % 256])
  else
    Except.error "could not broadcast input array"

/-- `reward_basic(info)`: starts from `rew = 0.0`, adds `1.0` when a new
cell is covered, subtracts `1.0` when the agent was seen (`game_over`).
Python floats are embedded as exact rationals. -/
def reward_basic (info : StepInfo) : ℚ :=
  let rew : ℚ := 0
  let rew := if info.new_cell_covered then rew + 1 else rew
  let rew := if info.game_over then rew - 1 else rew
  rew

/-- `reward_time_pressure(info)`: `+1` for a new cell, `-0.01` every step,
`-5` when caught, and `-0.05` when the agent position equals the position
recorded in the module-level `LAST_AGENT_POS` slot (skipped when that slot
is still `None`); the slot is then set to the current position
unconditionally.  The mutable global is embedded by passing the slot in
and returning the updated slot alongside the reward. -/
def reward_time_pressure (info : StepInfo) (last_agent_pos : Option Nat) :
    ℚ × Option Nat :=
  let rew : ℚ := 0
  let rew := if info.new_cell_covered then rew + 1 else rew
  let rew := rew - 1 / 100
  let rew := if info.game_over then rew - 5 else rew
  let current_pos := info.agent_pos
  let rew :=
    match last_agent_pos with
    | some p => if current_pos = p then rew - 5 / 100 else rew
    | none => rew
  (rew, some current_pos)

/-- `reward_proximity(info)`: `+1` for a new cell, `-0.01` every step, then
for each enemy in `info["enemies"]` subtracts `0.1` when the Manhattan
distance `abs(agent_x - enemy.x) + abs(agent_y - enemy.y)` is below 3
(with `agent_x = agent_pos % 10`, `agent_y = agent_pos // 10`), and `-5`
when caught. -/
def reward_proximity (info : StepInfo) : ℚ :=
  let rew : ℚ := 0
  let rew := if info.new_cell_covered then rew + 1 else rew
  let rew := rew - 1 / 100
  let agent_x := info.agent_pos % 10
  let agent_y := info.agent_pos / 10
  let rew := info.enemies.foldl
    (fun r enemy =>
      let dist := |(agent_x : Int) - enemy.x| + |(agent_y : Int) - enemy.y|
      if dist < 3 then r - 1 / 10 else r)
    rew
  let rew := if info.game_over then rew - 5 else rew
  rew

/-- The number of enemies at Manhattan distance strictly below 3 from the
agent (distance 0, 1 or 2). -/
def close_enemy_count (info : StepInfo) : Nat :=
  (info.enemies.filter fun enemy =>
    |((info.agent_pos % 10 : Nat) : Int) - enemy.x| +
      |((info.agent_pos / 10 : Nat) : Int) - enemy.y| < 3).length

/-- The module-level mutable globals of `custom.py`:
`CURRENT_OBS_MODE` (a string, compared against `"local"`),
`CURRENT_REWARD_MODE` (a string, compared against `"basic"` and
`"time_pressure"`), `LAST_AGENT_POS` (`None` or a position) and
`LAST_INFO` (`None` or the info cached by the reward hook). -/
structure ModuleState where
  current_obs_mode : String
  current_reward_mode : String
  last_agent_pos : Option Nat
  last_info : Option StepInfo

/-- The module state at process start:
`CURRENT_OBS_MODE = "global"`, `CURRENT_REWARD_MODE = "basic"`,
`LAST_AGENT_POS = None`, `LAST_INFO = None`. -/
def initState : ModuleState :=
  { current_obs_mode := "global", current_reward_mode := "basic"
    last_agent_pos := none, last_info := none }

/-- The `observation(grid)` hook: in local mode it uses the cached
`LAST_INFO` when one exists and otherwise falls back to the global
flatten; in any other mode it returns the global flatten.  The hook reads
the module state but never writes it (the Python function declares
`global LAST_INFO` without assigning to it). -/
def observation (grid : Grid) (s : ModuleState) : Except String (List Nat) :=
  if s.current_obs_mode = "local" then
    match s.last_info with
    | some info => local_observation grid info
    | none => Except.ok (global_observation grid)
  else
    Except.ok (global_observation grid)

/-- The `reward(info)` hook: stores `info` in `LAST_INFO`, then dispatches
on `CURRENT_REWARD_MODE` — `"basic"` to `reward_basic`,
`"time_pressure"` to `reward_time_pressure` (which also updates
`LAST_AGENT_POS`), and anything else to `reward_proximity`.  Returns the
reward together with the updated module state. -/
def reward (info : StepInfo) (s : ModuleState) : ℚ × ModuleState :=
  let s := { s with last_info := some info }
  if s.current_reward_mode = "basic" then
    (reward_basic info, s)
  else if s.current_reward_mode = "time_pressure" then
    let r := reward_time_pressure info s.last_agent_pos
    (r.1, { s with last_agent_pos := r.2 })
  else
    (reward_proximity info, s)

/-- The operations a caller can perform on the module: invoking the two
hooks, and externally assigning the two mode flags. -/
inductive ModuleOp where
  | callReward (info : StepInfo)
  | callObservation (grid : Grid)
  | setObsMode (mode : String)
  | setRewardMode (mode : String)

/-- The effect of one module operation on the module state: `reward`
returns its updated state, `observation` leaves the state unchanged, and
the two mode assignments overwrite the corresponding flag. -/
def ModuleOp.apply (s : ModuleState) : ModuleOp → ModuleState
  | .callReward info => (reward info s).2
  | .callObservation _ => s
  | .setObsMode m => { s with current_obs_mode := m }
  | .setRewardMode m => { s with current_reward_mode := m }

/-- Running a sequence of module operations from a starting state. -/
def runOps (s : ModuleState) (ops : List ModuleOp) : ModuleState :=
  ops.foldl ModuleOp.apply s

end CoverageGridworld

namespace CoverageGridworld

lemma getD_range_map (f : Nat → Nat) (n N : Nat) (h : n < N) :
    ((List.range N).map f).getD n 0 = f n := by
  rw [List.getD_eq_getElem?_getD, List.getElem?_map, List.getElem?_range h]
  rfl

/-- **C2.** For every grid of shape `(10,10,3)` with element values in
`[0,255]`, `global_observation` returns a sequence of length exactly 300
equal to the row-major, channel-last flatten of the grid (the element at
flat index `i = 30*r + 3*c + k` is `g r c k`), and reshaping the output
back to `(10,10,3)` recovers the original grid exactly on every valid
index (lossless round-trip). -/
theorem global_observation_length_and_roundtrip (g : Grid)
    (hg : ∀ r c k, r < 10 → c < 10 → k < 3 → g r c k ≤ 255) :
    (global_observation g).length = 300 ∧
    (∀ r c k, r < 10 → c < 10 → k < 3 →
      (global_observation g).getD (30 * r + 3 * c + k) 0 = g r c k) ∧
    (∀ r c k, r < 10 → c < 10 → k < 3 →
      reshape_10_10_3 (global_observation g) r c k = g r c k) := by
  have key : ∀ r c k, r < 10 → c < 10 → k < 3 →
      (global_observation g).getD (30 * r + 3 * c + k) 0 = g r c k := by
    intro r c k hr hc hk
    unfold global_observation
    rw [getD_range_map _ _ 300 (by omega)]
    have h30 : (30 * r + 3 * c + k) / 30 = r := by omega
    have h3 : (30 * r + 3 * c + k) / 3 % 10 = c := by omega
    have hm : (30 * r + 3 * c + k) % 3 = k := by omega
    rw [h30, h3, hm]
  refine ⟨by simp [global_observation], key, ?_⟩
  intro r c k hr hc hk
  unfold reshape_10_10_3
  exact key r c k hr hc hk

lemma length_flatten75 (p : Nat → Nat → Nat → Nat) :
    (flatten75 p).length = 75 := by
  simp [flatten75]

lemma getD_flatten75 (p : Nat → Nat → Nat → Nat) (i j k : Nat)
    (hi : i < 5) (hj : j < 5) (hk : k < 3) :
    (flatten75 p).getD (15 * i + 3 * j + k) 0 = p i j k := by
  unfold flatten75
  rw [getD_range_map _ _ 75 (by omega)]
  have h15 : (15 * i + 3 * j + k) / 15 = i := by omega
  have h3 : (15 * i + 3 * j + k) / 3 % 5 = j := by omega
  have hm : (15 * i + 3 * j + k) % 3 = k := by omega
  rw [h15, h3, hm]

/-- For every agent position up to 129 (so in particular every in-range
position `≤ 99`), the window height `h` is nonnegative, the numpy shape
check succeeds, and `local_observation` returns the flattened padded patch
followed by the two wrapped scalars. -/
lemma local_observation_ok (g : Grid) (info : StepInfo)
    (hpos : info.agent_pos ≤ 129) :
    local_observation g info =
      Except.ok (flatten75 (paddedPatch g
          (max 0 ((info.agent_pos : Int) / 10 - 2))
          (max 0 ((info.agent_pos : Int) % 10 - 2))
          (min 10 ((info.agent_pos : Int) / 10 + 2 + 1) -
            max 0 ((info.agent_pos : Int) / 10 - 2))
          (min 10 ((info.agent_pos : Int) % 10 + 2 + 1) -
            max 0 ((info.agent_pos : Int) % 10 - 2))) ++
        [info.steps_remaining % 256, info.cells_remaining % 256]) := by
  have hrow : (info.agent_pos : Int) / 10 ≤ 12 := by omega
  have hrow0 : 0 ≤ (info.agent_pos : Int) / 10 := by omega
  have hcol : (info.agent_pos : Int) % 10 ≤ 9 := by omega
  have hcol0 : 0 ≤ (info.agent_pos : Int) % 10 := by omega
  simp only [local_observation]
  rw [if_pos]
  constructor
  · unfold slice_len
    rw [if_pos (by omega)]
    omega
  · unfold slice_len
    rw [if_pos (by omega)]
    omega

/-- Witness for C2 at a concrete grid (constant value 7). -/
theorem global_observation_length_and_roundtrip_witness :
    ((global_observation (fun _ _ _ => 7)).length = 300 ∧
    (∀ r c k, r < 10 → c < 10 → k < 3 →
      (global_observation (fun _ _ _ => 7)).getD (30 * r + 3 * c + k) 0 =
        (fun _ _ _ => 7 : Grid) r c k) ∧
    (∀ r c k, r < 10 → c < 10 → k < 3 →
      reshape_10_10_3 (global_observation (fun _ _ _ => 7)) r c k =
        (fun _ _ _ => 7 : Grid) r c k)) :=
  global_observation_length_and_roundtrip (fun _ _ _ => 7)
    (fun _ _ _ _ _ _ => by norm_num)

/-- A concrete grid whose cell values encode their own coordinates. -/
def gCoord : Grid := fun r c k => (30 * r + 3 * c + k) % 256

/-- The all-zero grid. -/
def gZero : Grid := fun _ _ _ => 0

/-- A concrete in-range `StepInfo` at the bottom-right corner, position 99. -/
def info99 : StepInfo :=
  { agent_pos := 99, steps_remaining := 12, cells_remaining := 34
    new_cell_covered := true, game_over := false, enemies := [] }

/-- **C1.** For every grid and every `StepInfo` with `agent_pos ≤ 99`,
`local_observation` extracts the window with `row_min = max(0, p/10 - 2)`,
`row_max = min(10, p/10 + 3)` (symmetrically for columns; here stated over
`Nat`, where truncated subtraction `p/10 - 2` is exactly `max(0, p/10 - 2)`),
copies the clipped sub-grid into the top-left corner of a zero-initialized
5×5×3 buffer — flat element `15*i + 3*j + k` of the result equals the grid
value at `(row_min + i, col_min + j, k)` when `(i,j)` is inside the clipped
window extent `(row_max - row_min, col_max - col_min)` and `0` otherwise —
and every grid index the window reads is inside the source grid
(`row_min + i < 10`, `col_min + j < 10`).  Boundary positions 0 and 99 are
instances of the quantified statement (see the witness at 99). -/
theorem local_observation_window_c1 (g : Grid) (info : StepInfo)
    (hpos : info.agent_pos ≤ 99) :
    ∃ v, local_observation g info = Except.ok v ∧
      (∀ i j k, i < 5 → j < 5 → k < 3 →
        v.getD (15 * i + 3 * j + k) 0 =
          if i < min 10 (info.agent_pos / 10 + 3) - (info.agent_pos / 10 - 2) ∧
             j < min 10 (info.agent_pos % 10 + 3) - (info.agent_pos % 10 - 2)
          then g (info.agent_pos / 10 - 2 + i) (info.agent_pos % 10 - 2 + j) k
          else 0) ∧
      (∀ i j,
        i < min 10 (info.agent_pos / 10 + 3) - (info.agent_pos / 10 - 2) →
        j < min 10 (info.agent_pos % 10 + 3) - (info.agent_pos % 10 - 2) →
        info.agent_pos / 10 - 2 + i < 10 ∧ info.agent_pos % 10 - 2 + j < 10) := by
  refine ⟨_, local_observation_ok g info (by omega), ?_, ?_⟩
  · intro i j k hi hj hk
    rw [List.getD_append _ _ _ _ (by rw [length_flatten75]; omega)]
    rw [getD_flatten75 _ _ _ _ hi hj hk]
    unfold paddedPatch
    have hrm : (max 0 ((info.agent_pos : Int) / 10 - 2)).toNat =
        info.agent_pos / 10 - 2 := by omega
    have hcm : (max 0 ((info.agent_pos : Int) % 10 - 2)).toNat =
        info.agent_pos % 10 - 2 := by omega
    rw [hrm, hcm]
    by_cases hcond :
        i < min 10 (info.agent_pos / 10 + 3) - (info.agent_pos / 10 - 2) ∧
        j < min 10 (info.agent_pos % 10 + 3) - (info.agent_pos % 10 - 2)
    · rw [if_pos hcond, if_pos (by omega)]
    · rw [if_neg hcond, if_neg (by omega)]
  · intro i j hi hj
    omega

/-- Witness for C1: the bottom-right boundary position 99 on the
coordinate-encoding grid. -/
theorem local_observation_window_c1_witness :
    ∃ v, local_observation gCoord info99 = Except.ok v ∧
      (∀ i j k, i < 5 → j < 5 → k < 3 →
        v.getD (15 * i + 3 * j + k) 0 =
          if i < min 10 (info99.agent_pos / 10 + 3) -
                (info99.agent_pos / 10 - 2) ∧
             j < min 10 (info99.agent_pos % 10 + 3) -
                (info99.agent_pos % 10 - 2)
          then gCoord (info99.agent_pos / 10 - 2 + i)
                 (info99.agent_pos % 10 - 2 + j) k
          else 0) ∧
      (∀ i j,
        i < min 10 (info99.agent_pos / 10 + 3) - (info99.agent_pos / 10 - 2) →
        j < min 10 (info99.agent_pos % 10 + 3) - (info99.agent_pos % 10 - 2) →
        info99.agent_pos / 10 - 2 + i < 10 ∧
          info99.agent_pos % 10 - 2 + j < 10) :=
  local_observation_window_c1 gCoord info99 (by decide)

/-- A `StepInfo` whose `steps_remaining` (300) exceeds the uint8 range. -/
def infoWrap : StepInfo :=
  { agent_pos := 0, steps_remaining := 300, cells_remaining := 7
    new_cell_covered := false, game_over := false, enemies := [] }

/-- **C3 counterexample.** The claim says the two appended scalars are
clamped to `[0,255]`.  With `steps_remaining = 300` the code (a `np.uint8`
cast) stores `300 % 256 = 44` at index 75, not the clamp
`min 300 255 = 255`. -/
theorem local_observation_clamp_counterexample :
    (local_observation gZero infoWrap).toOption.map (fun v => v.getD 75 0) =
        some 44 ∧
      (44 : Nat) ≠ min 300 255 := by
  constructor
  · decide
  · decide

/-- **C3 (amended).** For every grid and every `StepInfo` with
`agent_pos ≤ 99`, `local_observation` returns a vector of length exactly
77 whose element at index 75 is `steps_remaining` and element at index 76
is `cells_remaining`, each reduced modulo 256 (`np.uint8` wrap-around, not
a clamp to `[0,255]`; the two coincide for values already in `[0,255]`). -/
theorem local_observation_scalars_c3 (g : Grid) (info : StepInfo)
    (hpos : info.agent_pos ≤ 99) :
    ∃ v, local_observation g info = Except.ok v ∧
      v.length = 77 ∧
      v.getD 75 0 = info.steps_remaining % 256 ∧
      v.getD 76 0 = info.cells_remaining % 256 := by
  refine ⟨_, local_observation_ok g info (by omega), ?_, ?_, ?_⟩
  · rw [List.length_append, length_flatten75]
    rfl
  · rw [List.getD_append_right _ _ _ _ (by rw [length_flatten75])]
    rw [length_flatten75]
    rfl
  · rw [List.getD_append_right _ _ _ _ (by rw [length_flatten75]; omega)]
    rw [length_flatten75]
    rfl

/-- Witness for C3 (amended) at position 99 with both scalars above 255. -/
theorem local_observation_scalars_c3_witness :
    ∃ v, local_observation gZero
        { agent_pos := 99, steps_remaining := 300, cells_remaining := 260
          new_cell_covered := false, game_over := false, enemies := [] } =
          Except.ok v ∧
      v.length = 77 ∧
      v.getD 75 0 = 300 % 256 ∧
      v.getD 76 0 = 260 % 256 :=
  local_observation_scalars_c3 gZero
    { agent_pos := 99, steps_remaining := 300, cells_remaining := 260
      new_cell_covered := false, game_over := false, enemies := [] }
    (by decide)

/-- A `StepInfo` whose `agent_pos` (100) is outside the valid range. -/
def info100 : StepInfo :=
  { agent_pos := 100, steps_remaining := 3, cells_remaining := 4
    new_cell_covered := false, game_over := false, enemies := [] }

/-- **C8 counterexample.** The claim says inputs with `agent_pos` outside
`[0,99]` are explicitly rejected.  At `agent_pos = 100` the code performs
no validation: the (empty-on-the-bottom) window rows 8–9 are sliced and
the call silently returns a normally-shaped 77-element vector. -/
theorem local_observation_no_reject_counterexample :
    (local_observation gZero info100).toOption.map List.length = some 77 := by
  decide

/-- **C8 (amended).** `local_observation` does not validate `agent_pos`:
for every out-of-range position in `[100,129]` it silently succeeds with a
normally-shaped 77-element vector instead of rejecting the input.  (For
positions in `[130,169]` the numpy slice assignment happens to raise a
shape-mismatch `ValueError`, but that is an incidental broadcast failure,
not an explicit InvalidInput rejection.) -/
theorem local_observation_out_of_range_c8 (g : Grid) (info : StepInfo)
    (h1 : 100 ≤ info.agent_pos) (h2 : info.agent_pos ≤ 129) :
    ∃ v, local_observation g info = Except.ok v ∧ v.length = 77 := by
  refine ⟨_, local_observation_ok g info h2, ?_⟩
  rw [List.length_append, length_flatten75]
  rfl

/-- Witness for C8 (amended) at out-of-range position 125. -/
theorem local_observation_out_of_range_c8_witness :
    ∃ v, local_observation gZero
        { agent_pos := 125, steps_remaining := 0, cells_remaining := 0
          new_cell_covered := false, game_over := false, enemies := [] } =
          Except.ok v ∧ v.length = 77 :=
  local_observation_out_of_range_c8 gZero
    { agent_pos := 125, steps_remaining := 0, cells_remaining := 0
      new_cell_covered := false, game_over := false, enemies := [] }
    (by decide) (by decide)

/-- A concrete `StepInfo` with both event flags false, at position 7. -/
def infoFirst : StepInfo :=
  { agent_pos := 7, steps_remaining := 0, cells_remaining := 0
    new_cell_covered := false, game_over := false, enemies := [] }

/-- **C9.** For every `StepInfo`, `reward_basic` is the sum of two
independent additive contributions: `+1.0` if `new_cell_covered` and
`-1.0` if `game_over` (not mutually exclusive branches); in particular
`new_cell_covered = true, game_over = false` yields `1.0` and both true
yields `0.0`. -/
theorem reward_basic_additive_c9 :
    (∀ info : StepInfo, reward_basic info =
      (if info.new_cell_covered then (1 : ℚ) else 0) +
        (if info.game_over then (-1 : ℚ) else 0)) ∧
    reward_basic { infoFirst with new_cell_covered := true } = 1 ∧
    reward_basic
      { infoFirst with new_cell_covered := true, game_over := true } = 0 := by
  refine ⟨?_, ?_, ?_⟩
  · intro info
    cases hnc : info.new_cell_covered <;> cases hgo : info.game_over <;>
      simp [reward_basic, hnc, hgo]
  · simp [reward_basic, infoFirst]
  · simp [reward_basic, infoFirst]

/-- **C4.** For every `StepInfo` and every prior content of the
`LAST_AGENT_POS` slot, `reward_time_pressure` returns `+1.0` if
`new_cell_covered`, plus an unconditional `-0.01`, plus `-5.0` if
`game_over`, plus an extra `-0.05` exactly when a prior position was
recorded and equals `agent_pos` (`last_agent_pos = some info.agent_pos`);
the slot is updated to the current position unconditionally after every
evaluation, including a first call (slot `none`), where no comparison is
made.  In particular a first call with both flags false returns `-0.01`,
and an immediately following call at the identical position with the same
flags returns `-0.06`. -/
theorem reward_time_pressure_c4 :
    (∀ (info : StepInfo) (last_agent_pos : Option Nat),
      reward_time_pressure info last_agent_pos =
        ((if info.new_cell_covered then (1 : ℚ) else 0) + (-1 / 100) +
          (if info.game_over then (-5 : ℚ) else 0) +
          (if last_agent_pos = some info.agent_pos then (-5 / 100 : ℚ)
            else 0),
         some info.agent_pos)) ∧
    reward_time_pressure infoFirst none = (-1 / 100, some 7) ∧
    reward_time_pressure infoFirst
      (reward_time_pressure infoFirst none).2 = (-6 / 100, some 7) := by
  refine ⟨?_, ?_, ?_⟩
  · intro info last_agent_pos
    cases last_agent_pos with
    | none =>
        cases hnc : info.new_cell_covered <;> cases hgo : info.game_over <;>
          simp [reward_time_pressure, hnc, hgo] <;> ring
    | some p =>
        by_cases hp : info.agent_pos = p
        · cases hnc : info.new_cell_covered <;>
            cases hgo : info.game_over <;>
            simp [reward_time_pressure, hnc, hgo, hp] <;> ring
        · cases hnc : info.new_cell_covered <;>
            cases hgo : info.game_over <;>
            simp [reward_time_pressure, hnc, hgo, hp, Ne.symm hp] <;> ring
  · simp [reward_time_pressure, infoFirst]
    norm_num
  · simp [reward_time_pressure, infoFirst]
    norm_num

/-- Accumulating `-0.1` over a list of enemies for those whose Manhattan
distance to `(ax, ay)` is below 3 subtracts `0.1` once per qualifying
enemy. -/
lemma foldl_close_penalty (l : List Enemy) (ax ay : Int) (r : ℚ) :
    l.foldl
      (fun r enemy =>
        if |ax - enemy.x| + |ay - enemy.y| < 3 then r - 1 / 10 else r) r =
      r - (1 / 10) *
        ((l.filter fun enemy =>
          |ax - enemy.x| + |ay - enemy.y| < 3).length : ℚ) := by
  induction l generalizing r with
  | nil => simp
  | cons e t ih =>
      simp only [List.foldl_cons, List.filter_cons]
      by_cases hf : |ax - e.x| + |ay - e.y| < 3
      · rw [if_pos hf, ih]
        simp [hf]
        ring
      · rw [if_neg hf, ih]
        simp [hf]

/-- A concrete `StepInfo` at position 44 (column 4, row 4) with one enemy
at Manhattan distance 1 and one at distance 5, a new cell covered and the
game not over. -/
def infoProx : StepInfo :=
  { agent_pos := 44, steps_remaining := 0, cells_remaining := 0
    new_cell_covered := true, game_over := false
    enemies := [{ x := 4, y := 5 }, { x := 9, y := 4 }] }

/-- **C5.** For every `StepInfo`, `reward_proximity` is the sum of `+1.0`
if `new_cell_covered`, an unconditional `-0.01`, `-0.1` for each enemy
(uncapped, once per qualifying enemy) whose Manhattan distance to the
agent is strictly below 3, and `-5.0` if `game_over`; in particular with
two enemies at distances 1 and 5, a new cell covered and the game not
over, the result is `1.0 - 0.01 - 0.1 = 0.89`. -/
theorem reward_proximity_c5 :
    (∀ info : StepInfo, reward_proximity info =
      (if info.new_cell_covered then (1 : ℚ) else 0) - 1 / 100 -
        (1 / 10) * (close_enemy_count info : ℚ) +
        (if info.game_over then (-5 : ℚ) else 0)) ∧
    close_enemy_count infoProx = 1 ∧
    reward_proximity infoProx = 89 / 100 := by
  have key : ∀ info : StepInfo, reward_proximity info =
      (if info.new_cell_covered then (1 : ℚ) else 0) - 1 / 100 -
        (1 / 10) * (close_enemy_count info : ℚ) +
        (if info.game_over then (-5 : ℚ) else 0) := by
    intro info
    simp only [reward_proximity]
    rw [foldl_close_penalty]
    unfold close_enemy_count
    cases hnc : info.new_cell_covered <;> cases hgo : info.game_over <;>
      simp [hnc, hgo] <;> ring
  have hcount : close_enemy_count infoProx = 1 := by decide
  refine ⟨key, hcount, ?_⟩
  rw [key infoProx, hcount]
  simp [infoProx]
  norm_num

lemma reward_sets_last_info (info : StepInfo) (s : ModuleState) :
    (reward info s).2.last_info = some info := by
  simp only [reward]
  split_ifs <;> rfl

/-- **C6.** For every `StepInfo` and every module state, the dispatch
entry point `reward` caches the info into the `LAST_INFO` slot and
returns exactly the value of the policy selected by the current reward
mode: `reward_basic` when the mode is `"basic"`, `reward_time_pressure`
(on the current `LAST_AGENT_POS` slot) when it is `"time_pressure"`, and
`reward_proximity` when it is `"proximity"`. -/
theorem reward_dispatch_c6 (info : StepInfo) (s : ModuleState) :
    (reward info s).2.last_info = some info ∧
    (s.current_reward_mode = "basic" →
      (reward info s).1 = reward_basic info) ∧
    (s.current_reward_mode = "time_pressure" →
      (reward info s).1 = (reward_time_pressure info s.last_agent_pos).1) ∧
    (s.current_reward_mode = "proximity" →
      (reward info s).1 = reward_proximity info) := by
  refine ⟨reward_sets_last_info info s, ?_, ?_, ?_⟩
  · intro hb
    simp [reward, hb]
  · intro ht
    simp [reward, ht]
  · intro hp
    simp [reward, hp]

/-- Witness for C6: the same info dispatched under each of the three
reward modes, plus the caching of the info record. -/
theorem reward_dispatch_c6_witness :
    (reward infoFirst initState).2.last_info = some infoFirst ∧
    (reward infoFirst initState).1 = reward_basic infoFirst ∧
    (reward infoFirst
        { initState with current_reward_mode := "time_pressure" }).1 =
      (reward_time_pressure infoFirst none).1 ∧
    (reward infoFirst
        { initState with current_reward_mode := "proximity" }).1 =
      reward_proximity infoFirst :=
  ⟨(reward_dispatch_c6 infoFirst initState).1,
   (reward_dispatch_c6 infoFirst initState).2.1 rfl,
   (reward_dispatch_c6 infoFirst
     { initState with current_reward_mode := "time_pressure" }).2.2.1 rfl,
   (reward_dispatch_c6 infoFirst
     { initState with current_reward_mode := "proximity" }).2.2.2 rfl⟩

lemma local_observation_length_77 (g : Grid) (info : StepInfo)
    (hpos : info.agent_pos ≤ 129) :
    ∃ v, local_observation g info = Except.ok v ∧ v.length = 77 := by
  refine ⟨_, local_observation_ok g info hpos, ?_⟩
  rw [List.length_append, length_flatten75]
  rfl

/-- **C7.** When the observation mode is `"local"`, `observation(grid)`
returns `local_observation(grid, cached info)` — a 77-element vector for
any in-range cached `StepInfo` — whenever a cached info exists; when no
cached info exists it falls back to the global full-grid flatten, a
300-element vector (so the fallback does not produce 77 elements).  When
the observation mode is `"global"`, `observation(grid)` always returns
the 300-element flatten. -/
theorem observation_dispatch_c7 (g : Grid) (s : ModuleState) :
    (∀ info, s.current_obs_mode = "local" → s.last_info = some info →
      observation g s = local_observation g info ∧
      (info.agent_pos ≤ 99 →
        ∃ v, observation g s = Except.ok v ∧ v.length = 77)) ∧
    (s.current_obs_mode = "local" → s.last_info = none →
      observation g s = Except.ok (global_observation g) ∧
      (global_observation g).length = 300) ∧
    (s.current_obs_mode = "global" →
      observation g s = Except.ok (global_observation g) ∧
      (global_observation g).length = 300) := by
  refine ⟨?_, ?_, ?_⟩
  · intro info hmode hcache
    have hobs : observation g s = local_observation g info := by
      simp [observation, hmode, hcache]
    refine ⟨hobs, ?_⟩
    intro hpos
    rw [hobs]
    exact local_observation_length_77 g info (by omega)
  · intro hmode hcache
    refine ⟨by simp [observation, hmode, hcache], by simp [global_observation]⟩
  · intro hmode
    have : s.current_obs_mode ≠ "local" := by
      rw [hmode]
      decide
    refine ⟨by simp [observation, this], by simp [global_observation]⟩

/-- Witness for C7: a local-mode state with a cached in-range info, a
local-mode state with an empty cache, and a global-mode state. -/
theorem observation_dispatch_c7_witness :
    (observation gZero
        { initState with
          current_obs_mode := "local"
          last_info := some info99 } =
      local_observation gZero info99) ∧
    (∃ v, observation gZero
        { initState with
          current_obs_mode := "local"
          last_info := some info99 } = Except.ok v ∧ v.length = 77) ∧
    (observation gZero { initState with current_obs_mode := "local" } =
      Except.ok (global_observation gZero) ∧
      (global_observation gZero).length = 300) ∧
    (observation gZero initState = Except.ok (global_observation gZero) ∧
      (global_observation gZero).length = 300) :=
  ⟨((observation_dispatch_c7 gZero _).1 info99 rfl rfl).1,
   ((observation_dispatch_c7 gZero _).1 info99 rfl rfl).2 (by decide),
   (observation_dispatch_c7 gZero _).2.1 rfl rfl,
   (observation_dispatch_c7 gZero _).2.2 rfl⟩

/-- **C10.** Once the cached-`LAST_INFO` slot holds a value, no operation
of the module ever clears it: `observation` only reads the state,
`reward` only overwrites the slot with the new info, and the mode
assignments leave it untouched.  Consequently the slot stays populated
along every operation sequence, and in local mode the fallback to the
full-grid flatten can occur only before the very first `reward` call —
after any sequence containing a `reward` call the slot is populated. -/
theorem last_info_persistent_c10 :
    (∀ (s : ModuleState) (op : ModuleOp), s.last_info.isSome = true →
      ((ModuleOp.apply s op).last_info).isSome = true) ∧
    (∀ (s : ModuleState) (ops : List ModuleOp), s.last_info.isSome = true →
      ((runOps s ops).last_info).isSome = true) ∧
    (∀ (s : ModuleState) (info : StepInfo),
      (ModuleOp.apply s (ModuleOp.callReward info)).last_info = some info) ∧
    (∀ (s : ModuleState) (g : Grid),
      ModuleOp.apply s (ModuleOp.callObservation g) = s) ∧
    (∀ (s : ModuleState) (ops : List ModuleOp) (info : StepInfo),
      ModuleOp.callReward info ∈ ops →
      ((runOps s ops).last_info).isSome = true) := by
  have hstep : ∀ (s : ModuleState) (op : ModuleOp), s.last_info.isSome = true →
      ((ModuleOp.apply s op).last_info).isSome = true := by
    intro s op hs
    cases op with
    | callReward info => rw [ModuleOp.apply, reward_sets_last_info]; rfl
    | callObservation g => exact hs
    | setObsMode m => exact hs
    | setRewardMode m => exact hs
  have hrun : ∀ (ops : List ModuleOp) (s : ModuleState),
      s.last_info.isSome = true →
      ((runOps s ops).last_info).isSome = true := by
    intro ops
    induction ops with
    | nil => intro s hs; exact hs
    | cons op t ih =>
        intro s hs
        exact ih (ModuleOp.apply s op) (hstep s op hs)
  have hset : ∀ (s : ModuleState) (info : StepInfo),
      (ModuleOp.apply s (ModuleOp.callReward info)).last_info = some info := by
    intro s info
    rw [ModuleOp.apply, reward_sets_last_info]
  refine ⟨hstep, fun s ops => hrun ops s, hset, fun s g => rfl, ?_⟩
  intro s ops
  induction ops generalizing s with
  | nil => intro info hmem; cases hmem
  | cons op t ih =>
      intro info hmem
      rcases List.mem_cons.mp hmem with hop | ht
      · subst hop
        exact hrun t _ (by rw [hset]; rfl)
      · exact ih (ModuleOp.apply s op) info ht

/-- Witness for C10: a populated slot survives a mode change and an
observation call, and a trace containing a reward call ends populated. -/
theorem last_info_persistent_c10_witness :
    ((runOps { initState with last_info := some info99 }
        [ModuleOp.setObsMode "local", ModuleOp.callObservation gZero]).last_info).isSome = true ∧
    ((runOps initState
        [ModuleOp.callReward info99, ModuleOp.setObsMode "local",
         ModuleOp.callObservation gZero]).last_info).isSome = true :=
  ⟨last_info_persistent_c10.2.1 { initState with last_info := some info99 }
      [ModuleOp.setObsMode "local", ModuleOp.callObservation gZero] rfl,
   last_info_persistent_c10.2.2.2.2 initState
      [ModuleOp.callReward info99, ModuleOp.setObsMode "local",
       ModuleOp.callObservation gZero] info99 (by simp)⟩

end CoverageGridworld
